import Mathlib

/-!
Verification of the load-testing metrics core (`src/utils/client.ts`) and
the scheduler/exit logic of the load scripts (`src/scripts/load-quotes.ts`,
`src/scripts/load-pool-reads.ts`).

The TypeScript code is shallowly embedded: the mutable `LoadTestMetrics`
record becomes an immutable structure with record-update operations,
JavaScript numbers holding millisecond counts become `Nat`, values that may
be fractional become `ℚ`, and a JavaScript division whose result is not a
finite number (NaN or ±Infinity, arising from a zero divisor) is embedded
as `none : Option ℚ`.
-/

namespace LoadTesting

/-- Embedding of the `LoadTestMetrics` interface of `src/utils/client.ts`:
counters are `Nat`, `requestDurations` is the ordered list of success
latencies, and `errors` the ordered list of `(message, timestamp)` pairs. -/
structure LoadTestMetrics where
  totalRequests : Nat
  successfulRequests : Nat
  failedRequests : Nat
  rateLimitErrors : Nat
  otherErrors : Nat
  totalDurationMs : Nat
  requestDurations : List Nat
  errors : List (String × Nat)
deriving DecidableEq

/-- Embedding of `createMetrics`: all counters zero, both sequences empty. -/
def createMetrics : LoadTestMetrics :=
  { totalRequests := 0
    successfulRequests := 0
    failedRequests := 0
    rateLimitErrors := 0
    otherErrors := 0
    totalDurationMs := 0
    requestDurations := []
    errors := [] }

/-- Embedding of `recordSuccess`: increments `totalRequests` and
`successfulRequests` and pushes the duration onto `requestDurations`. -/
def recordSuccess (m : LoadTestMetrics) (durationMs : Nat) : LoadTestMetrics :=
  { m with
    totalRequests := m.totalRequests + 1
    successfulRequests := m.successfulRequests + 1
    requestDurations := m.requestDurations ++ [durationMs] }

/-- Embedding of `String.prototype.toLowerCase` on one character: ASCII
upper-case letters are shifted down by 32 code points, all else unchanged. -/
def lowerChar (c : Char) : Char :=
  if 65 ≤ c.toNat ∧ c.toNat ≤ 90 then Char.ofNat (c.toNat + 32) else c

/-- Embedding of `String.prototype.toLowerCase` on a whole string. -/
def lowerStr (s : String) : String :=
  String.mk (s.data.map lowerChar)

/-- Contiguous-substring test on character lists, the semantics of
`String.prototype.includes`. -/
def containsSub (needle : List Char) : List Char → Bool
  | [] => needle.isEmpty
  | c :: rest => needle.isPrefixOf (c :: rest) || containsSub needle rest

/-- Embedding of `s.includes(sub)` for strings. -/
def strContains (s sub : String) : Bool :=
  containsSub sub.data s.data

/-- The rate-limit test of `recordError` in `src/utils/client.ts`: the
lower-cased message contains "rate", "limit", "429" or "too many". -/
def isRateLimitMessage (msg : String) : Bool :=
  let message := lowerStr msg
  strContains message "rate" || strContains message "limit" ||
    strContains message "429" || strContains message "too many"

/-- Embedding of `recordError`: increments `totalRequests` and
`failedRequests`, increments the subcategory counter selected by the
rate-limit test on the lower-cased message, and pushes the original
(non-lowercased) message with its timestamp onto `errors`. -/
def recordError (m : LoadTestMetrics) (message : String) (timestamp : Nat) :
    LoadTestMetrics :=
  let m1 := { m with
    totalRequests := m.totalRequests + 1
    failedRequests := m.failedRequests + 1 }
  let m2 :=
    if isRateLimitMessage message then
      { m1 with rateLimitErrors := m1.rateLimitErrors + 1 }
    else
      { m1 with otherErrors := m1.otherErrors + 1 }
  { m2 with errors := m2.errors ++ [(message, timestamp)] }

/-- Outcome of one dispatched operation: it settles either with a success
duration or with a failure message (and the wall-clock timestamp at which
the failure is recorded). -/
inductive OpOutcome where
  | success (durationMs : Nat)
  | failure (message : String) (timestamp : Nat)
deriving DecidableEq

/-- Embedding of the Invoker boundary in both load scripts: the
`.then(() => recordSuccess(...)).catch((error) => recordError(...))`
continuation attached to each dispatched operation, which turns the
operation's settled outcome into exactly one metrics update. -/
def invokeRecord (m : LoadTestMetrics) : OpOutcome → LoadTestMetrics
  | .success d => recordSuccess m d
  | .failure msg ts => recordError m msg ts

/-- A whole run's worth of completions applied in completion order. -/
def runOps (m : LoadTestMetrics) (ops : List OpOutcome) : LoadTestMetrics :=
  ops.foldl invokeRecord m

/-- The data-model invariants of the spec, section 3. -/
def metricsInv (m : LoadTestMetrics) : Prop :=
  m.totalRequests = m.successfulRequests + m.failedRequests ∧
  m.failedRequests = m.rateLimitErrors + m.otherErrors ∧
  m.requestDurations.length = m.successfulRequests ∧
  m.errors.length = m.failedRequests

theorem metricsInv_createMetrics : metricsInv createMetrics := by
  constructor <;> simp [createMetrics, metricsInv]

theorem metricsInv_invokeRecord (m : LoadTestMetrics) (o : OpOutcome)
    (h : metricsInv m) : metricsInv (invokeRecord m o) := by
  obtain ⟨h1, h2, h3, h4⟩ := h
  cases o with
  | success d =>
    refine ⟨?_, ?_, ?_, ?_⟩ <;>
      (simp [invokeRecord, recordSuccess, h1, h2, h3, h4]; try omega)
  | failure msg ts =>
    unfold invokeRecord recordError
    by_cases hc : isRateLimitMessage msg <;>
      refine ⟨?_, ?_, ?_, ?_⟩ <;>
        simp [hc, h1, h2, h3, h4] <;> omega

theorem metricsInv_runOps_aux (ops : List OpOutcome) (m : LoadTestMetrics)
    (h : metricsInv m) : metricsInv (runOps m ops) := by
  induction ops generalizing m with
  | nil => exact h
  | cons o rest ih => exact ih _ (metricsInv_invokeRecord m o h)

/-- A JavaScript floating-point division whose operands are finite: it
yields a finite number exactly when the divisor is nonzero; a zero divisor
gives NaN or ±Infinity, embedded as `none`. -/
def jsDiv (a b : ℚ) : Option ℚ :=
  if b = 0 then none else some (a / b)

/-- Embedding of `[...metrics.requestDurations].sort((a, b) => a - b)`:
an ascending sort of a copy of the durations. -/
def sortAsc (l : List Nat) : List Nat :=
  List.insertionSort (· ≤ ·) l

/-- Element of the sorted list at the nearest-rank index
`floor(length * num / den)`, or `0` when that index is out of bounds —
the `sorted[Math.floor(sorted.length * p)] ?? 0` pattern of
`printMetricsSummary`. -/
def percentileAt (sorted : List Nat) (num den : Nat) : Nat :=
  (sorted[sorted.length * num / den]?).getD 0

/-- The numeric fields computed by `printMetricsSummary`. A field of type
`Option ℚ` is `none` exactly when the JavaScript computation produces a
non-finite number. -/
structure Report where
  totalRequests : Nat
  successfulRequests : Nat
  failedRequests : Nat
  rateLimitErrors : Nat
  otherErrors : Nat
  successRatePct : Option ℚ
  failureRatePct : Option ℚ
  avgDurationMs : ℚ
  p50 : Nat
  p95 : Nat
  p99 : Nat
  totalDurationMs : Nat
  throughputPerSec : Option ℚ
  firstErrors : List String
deriving DecidableEq

/-- Embedding of `printMetricsSummary`: computes the report from the
metrics and returns the metrics state after the call. Only a copy of
`requestDurations` is sorted, so the metrics come back unchanged. -/
def printMetricsSummary (m : LoadTestMetrics) : Report × LoadTestMetrics :=
  let avgDuration : ℚ :=
    if m.requestDurations.length > 0 then
      (m.requestDurations.sum : ℚ) / (m.requestDurations.length : ℚ)
    else 0
  let sortedDurations := sortAsc m.requestDurations
  let report : Report :=
    { totalRequests := m.totalRequests
      successfulRequests := m.successfulRequests
      failedRequests := m.failedRequests
      rateLimitErrors := m.rateLimitErrors
      otherErrors := m.otherErrors
      successRatePct :=
        (jsDiv (m.successfulRequests : ℚ) (m.totalRequests : ℚ)).map (· * 100)
      failureRatePct :=
        (jsDiv (m.failedRequests : ℚ) (m.totalRequests : ℚ)).map (· * 100)
      avgDurationMs := avgDuration
      p50 := percentileAt sortedDurations 50 100
      p95 := percentileAt sortedDurations 95 100
      p99 := percentileAt sortedDurations 99 100
      totalDurationMs := m.totalDurationMs
      throughputPerSec :=
        jsDiv (m.totalRequests : ℚ) ((m.totalDurationMs : ℚ) / 1000)
      firstErrors := (m.errors.take 5).map (fun e => e.1.take 100) }
  (report, m)

/-- Embedding of the per-iteration pacing step of the sustained-mode loop
in both load scripts: when the iteration's elapsed time is below the
interval, sleep for the difference; otherwise do not sleep at all. -/
def loopDelay (intervalMs elapsed : ℚ) : Option ℚ :=
  if elapsed < intervalMs then some (intervalMs - elapsed) else none

/-- The per-request interval `1000 / options.rps` of both load scripts. -/
def intervalMsOfRps (rps : Nat) : ℚ :=
  1000 / (rps : ℚ)

/-- Embedding of the end-of-run exit logic of `load-quotes.ts` and
`load-pool-reads.ts`: exit 1 when there were rate-limit errors, exit 1
when any request failed, exit 0 otherwise. -/
def exitCode (m : LoadTestMetrics) : Nat :=
  if m.rateLimitErrors > 0 then 1
  else if m.failedRequests > 0 then 1
  else 0

/-- C1: starting from `createMetrics`, after every sequence of
`recordSuccess`/`recordError` calls (hence at every intermediate point of a
run as well), the metrics satisfy
`totalRequests = successfulRequests + failedRequests`,
`failedRequests = rateLimitErrors + otherErrors`,
`requestDurations.length = successfulRequests` and
`errors.length = failedRequests`. -/
theorem claim_C1_metrics_invariants (ops : List OpOutcome) :
    metricsInv (runOps createMetrics ops) :=
  metricsInv_runOps_aux ops createMetrics metricsInv_createMetrics

/-- C2: `recordError` classifies a message as rate-limit exactly when the
lower-cased message contains "rate", "limit", "429" or "too many",
incrementing `rateLimitErrors` in that case and `otherErrors` otherwise;
"429 Too Many Requests" classifies as rate-limit, "connection refused" as
other, and two messages equal up to case classify identically. -/
theorem claim_C2_error_classifier (m : LoadTestMetrics) (msg : String)
    (ts : Nat) (s₁ s₂ : String) (hcase : lowerStr s₁ = lowerStr s₂) :
    (isRateLimitMessage msg =
      (strContains (lowerStr msg) "rate" || strContains (lowerStr msg) "limit" ||
       strContains (lowerStr msg) "429" || strContains (lowerStr msg) "too many")) ∧
    ((recordError m msg ts).rateLimitErrors =
      m.rateLimitErrors + (if isRateLimitMessage msg then 1 else 0)) ∧
    ((recordError m msg ts).otherErrors =
      m.otherErrors + (if isRateLimitMessage msg then 0 else 1)) ∧
    isRateLimitMessage "429 Too Many Requests" = true ∧
    isRateLimitMessage "connection refused" = false ∧
    isRateLimitMessage s₁ = isRateLimitMessage s₂ := by
  refine ⟨rfl, ?_, ?_, by decide, by decide, ?_⟩
  · by_cases h : isRateLimitMessage msg <;> simp [recordError, h]
  · by_cases h : isRateLimitMessage msg <;> simp [recordError, h]
  · simp only [isRateLimitMessage, hcase]

theorem claim_C2_witness :
    isRateLimitMessage "RATE Limited" = isRateLimitMessage "rate limited" :=
  (claim_C2_error_classifier createMetrics "timeout" 0
    "RATE Limited" "rate limited" (by decide)).2.2.2.2.2

/-- C3: the reported p50/p95/p99 are the elements of the ascending-sorted
copy of `requestDurations` at index `floor(length * p)`, with an
out-of-bounds index yielding 0; for durations [10, 20, 30, 40, 50] the
report gives p50 = 30 and p95 = 50, and for the empty sequence all
percentiles are 0. -/
theorem claim_C3_percentiles (m : LoadTestMetrics) :
    ((printMetricsSummary m).1.p50 =
      ((sortAsc m.requestDurations)[(sortAsc m.requestDurations).length * 50 / 100]?).getD 0) ∧
    ((printMetricsSummary m).1.p95 =
      ((sortAsc m.requestDurations)[(sortAsc m.requestDurations).length * 95 / 100]?).getD 0) ∧
    ((printMetricsSummary m).1.p99 =
      ((sortAsc m.requestDurations)[(sortAsc m.requestDurations).length * 99 / 100]?).getD 0) ∧
    (printMetricsSummary (runOps createMetrics
      [.success 10, .success 20, .success 30, .success 40, .success 50])).1.p50 = 30 ∧
    (printMetricsSummary (runOps createMetrics
      [.success 10, .success 20, .success 30, .success 40, .success 50])).1.p95 = 50 ∧
    (printMetricsSummary createMetrics).1.p50 = 0 ∧
    (printMetricsSummary createMetrics).1.p95 = 0 ∧
    (printMetricsSummary createMetrics).1.p99 = 0 :=
  ⟨rfl, rfl, rfl, by decide, by decide, by decide, by decide, by decide⟩

/-- C4: the scripts exit with code 0 exactly when `rateLimitErrors = 0` and
`failedRequests = 0`, and with code 1 exactly otherwise. -/
theorem claim_C4_exit_code (m : LoadTestMetrics) :
    (exitCode m = 0 ↔ (m.rateLimitErrors = 0 ∧ m.failedRequests = 0)) ∧
    (exitCode m = 1 ↔ ¬(m.rateLimitErrors = 0 ∧ m.failedRequests = 0)) := by
  unfold exitCode
  rcases Nat.eq_zero_or_pos m.rateLimitErrors with h1 | h1 <;>
    rcases Nat.eq_zero_or_pos m.failedRequests with h2 | h2 <;>
      simp [h1, h2, Nat.pos_iff_ne_zero] <;> omega

/-- C5: for every settled operation outcome, the Invoker boundary records
exactly one outcome — `totalRequests` grows by exactly one, and exactly one
of a `recordSuccess` or a `recordError` update is applied. The boundary is
a total function, so it never raises. -/
theorem claim_C5_single_record (m : LoadTestMetrics) (o : OpOutcome) :
    (invokeRecord m o).totalRequests = m.totalRequests + 1 ∧
    ((∃ d, o = .success d ∧ invokeRecord m o = recordSuccess m d ∧
        (invokeRecord m o).successfulRequests = m.successfulRequests + 1 ∧
        (invokeRecord m o).failedRequests = m.failedRequests) ∨
     (∃ msg ts, o = .failure msg ts ∧ invokeRecord m o = recordError m msg ts ∧
        (invokeRecord m o).failedRequests = m.failedRequests + 1 ∧
        (invokeRecord m o).successfulRequests = m.successfulRequests)) := by
  cases o with
  | success d =>
    refine ⟨rfl, .inl ⟨d, rfl, rfl, rfl, rfl⟩⟩
  | failure msg ts =>
    refine ⟨?_, .inr ⟨msg, ts, rfl, rfl, ?_, ?_⟩⟩ <;>
      by_cases h : isRateLimitMessage msg <;> simp [invokeRecord, recordError, h]

/-- C6: the sustained-mode pacing step suspends for `interval - elapsed`
exactly when `elapsed < interval`, proceeds immediately otherwise, and any
sleep duration it computes is strictly positive — never negative. -/
theorem claim_C6_scheduler_delay (intervalMs elapsed : ℚ) :
    (elapsed < intervalMs →
      loopDelay intervalMs elapsed = some (intervalMs - elapsed) ∧
      0 < intervalMs - elapsed) ∧
    (intervalMs ≤ elapsed → loopDelay intervalMs elapsed = none) ∧
    (∀ d, loopDelay intervalMs elapsed = some d → 0 < d) := by
  unfold loopDelay
  by_cases h : elapsed < intervalMs
  · refine ⟨fun _ => ⟨by simp [h], sub_pos.mpr h⟩,
      fun h2 => absurd h (not_lt.mpr h2), fun d hd => ?_⟩
    simp only [if_pos h, Option.some.injEq] at hd
    exact hd ▸ sub_pos.mpr h
  · refine ⟨fun h2 => absurd h2 h, fun _ => by simp [h], fun d hd => ?_⟩
    simp [h] at hd

theorem claim_C6_witness :
    loopDelay (intervalMsOfRps 10) 40 = some (intervalMsOfRps 10 - 40) ∧
    (0 : ℚ) < intervalMsOfRps 10 - 40 :=
  (claim_C6_scheduler_delay (intervalMsOfRps 10) 40).1
    (by norm_num [intervalMsOfRps])

/-- The mixed-outcome scenario of the spec, section 8: three successes with
durations 10, 20, 30 and two failures, one rate-limit-matching message and
one other. -/
def mixedRun : LoadTestMetrics :=
  runOps createMetrics
    [.success 10, .success 20, .success 30,
     .failure "rate limit exceeded" 100, .failure "internal error" 200]

/-- C7: the reported average duration is the arithmetic mean of
`requestDurations` and 0 when the sequence is empty; the mixed-outcome
scenario yields totals 5/3/2, one rate-limit and one other error, and an
average duration of 20. -/
theorem claim_C7_average (m : LoadTestMetrics) :
    ((printMetricsSummary m).1.avgDurationMs =
      if m.requestDurations.length > 0 then
        (m.requestDurations.sum : ℚ) / (m.requestDurations.length : ℚ)
      else 0) ∧
    (m.requestDurations = [] → (printMetricsSummary m).1.avgDurationMs = 0) ∧
    mixedRun.totalRequests = 5 ∧
    mixedRun.successfulRequests = 3 ∧
    mixedRun.failedRequests = 2 ∧
    mixedRun.rateLimitErrors = 1 ∧
    mixedRun.otherErrors = 1 ∧
    (printMetricsSummary mixedRun).1.avgDurationMs = 20 := by
  have hdur : mixedRun.requestDurations = [10, 20, 30] := by decide
  refine ⟨rfl, fun h => ?_, by decide, by decide, by decide, by decide, by decide, ?_⟩
  · simp [printMetricsSummary, h]
  · simp [printMetricsSummary, hdur]
    norm_num

theorem claim_C7_witness :
    (printMetricsSummary createMetrics).1.avgDurationMs = 0 :=
  (claim_C7_average createMetrics).2.1 rfl

/-- C8: the Reporter is idempotent — since it sorts only a copy of
`requestDurations`, the metrics it returns are the ones it was given, and a
second invocation on them yields the identical report. -/
theorem claim_C8_reporter_idempotent (m : LoadTestMetrics) :
    (printMetricsSummary ((printMetricsSummary m).2)).1 = (printMetricsSummary m).1 ∧
    (printMetricsSummary m).2 = m :=
  ⟨rfl, rfl⟩

/-- C9: `recordSuccess` changes only `totalRequests`, `successfulRequests`
and `requestDurations`; `recordError` changes only `totalRequests`,
`failedRequests`, exactly one of the two error subcounters, and `errors`,
and the appended error record stores the original, non-lowercased
message. -/
theorem claim_C9_frame (m : LoadTestMetrics) (d : Nat) (msg : String) (ts : Nat) :
    ((recordSuccess m d).totalRequests = m.totalRequests + 1 ∧
     (recordSuccess m d).successfulRequests = m.successfulRequests + 1 ∧
     (recordSuccess m d).requestDurations = m.requestDurations ++ [d] ∧
     (recordSuccess m d).failedRequests = m.failedRequests ∧
     (recordSuccess m d).rateLimitErrors = m.rateLimitErrors ∧
     (recordSuccess m d).otherErrors = m.otherErrors ∧
     (recordSuccess m d).errors = m.errors ∧
     (recordSuccess m d).totalDurationMs = m.totalDurationMs) ∧
    ((recordError m msg ts).totalRequests = m.totalRequests + 1 ∧
     (recordError m msg ts).failedRequests = m.failedRequests + 1 ∧
     (recordError m msg ts).errors = m.errors ++ [(msg, ts)] ∧
     (recordError m msg ts).successfulRequests = m.successfulRequests ∧
     (recordError m msg ts).requestDurations = m.requestDurations ∧
     (recordError m msg ts).totalDurationMs = m.totalDurationMs ∧
     (((recordError m msg ts).rateLimitErrors = m.rateLimitErrors + 1 ∧
       (recordError m msg ts).otherErrors = m.otherErrors) ∨
      ((recordError m msg ts).rateLimitErrors = m.rateLimitErrors ∧
       (recordError m msg ts).otherErrors = m.otherErrors + 1))) := by
  constructor
  · exact ⟨rfl, rfl, rfl, rfl, rfl, rfl, rfl, rfl⟩
  · by_cases h : isRateLimitMessage msg
    · refine ⟨?_, ?_, ?_, ?_, ?_, ?_, .inl ⟨?_, ?_⟩⟩ <;> simp [recordError, h]
    · refine ⟨?_, ?_, ?_, ?_, ?_, ?_, .inr ⟨?_, ?_⟩⟩ <;> simp [recordError, h]

/-- C10: only the duration average is guarded against empty input. When
`totalRequests = 0` the success- and failure-rate divisions have a zero
divisor (a non-finite JavaScript result, embedded as `none`), and when
`totalDurationMs = 0` so does the throughput division; with nonzero
divisors the divisions are performed unguarded, while `avgDurationMs` is
defined to be 0 for an empty sequence. -/
theorem claim_C10_unguarded_divisions (m : LoadTestMetrics) :
    (m.totalRequests = 0 →
      (printMetricsSummary m).1.successRatePct = none ∧
      (printMetricsSummary m).1.failureRatePct = none) ∧
    (m.totalDurationMs = 0 →
      (printMetricsSummary m).1.throughputPerSec = none) ∧
    (m.requestDurations = [] → (printMetricsSummary m).1.avgDurationMs = 0) ∧
    (m.totalRequests ≠ 0 →
      (printMetricsSummary m).1.successRatePct =
        some ((m.successfulRequests : ℚ) / (m.totalRequests : ℚ) * 100) ∧
      (printMetricsSummary m).1.failureRatePct =
        some ((m.failedRequests : ℚ) / (m.totalRequests : ℚ) * 100)) ∧
    (m.totalDurationMs ≠ 0 →
      (printMetricsSummary m).1.throughputPerSec =
        some ((m.totalRequests : ℚ) / ((m.totalDurationMs : ℚ) / 1000))) := by
  refine ⟨fun h => ?_, fun h => ?_, fun h => ?_, fun h => ?_, fun h => ?_⟩
  · constructor <;> simp [printMetricsSummary, jsDiv, h]
  · simp [printMetricsSummary, jsDiv, h]
  · simp [printMetricsSummary, h]
  · constructor <;> simp [printMetricsSummary, jsDiv, h]
  · have hq : ((m.totalDurationMs : ℚ) / 1000) ≠ 0 := by
      have : (m.totalDurationMs : ℚ) ≠ 0 := Nat.cast_ne_zero.mpr h
      positivity
    simp [printMetricsSummary, jsDiv, hq]

theorem claim_C10_witness :
    (printMetricsSummary createMetrics).1.successRatePct = none ∧
    (printMetricsSummary createMetrics).1.failureRatePct = none :=
  (claim_C10_unguarded_divisions createMetrics).1 rfl

end LoadTesting
